import Mathlib

/-!
# Verification of the mock-backend Request Lifecycle Simulator and Entity Store

Shallow embedding of `mock-backend/main.py` (together with the SQLAlchemy
schema of `mock-backend/models.py`): the in-memory legacy request registry
(`requests_storage` / `tasks_storage`), the lifecycle simulator
(`simulate_processing`), and the persistent entity handlers
(`create_agent_task`, `update_agent_task`, `get_projects`,
`get_request_tasks`).

Python dictionaries keyed by request id are modelled as association lists;
`datetime.now()` is modelled as an explicit `Nat` instant passed to each
handler; Python's process-seeded `hash` on strings is modelled as an
arbitrary function `h : String → Int` supplied as a parameter; the uuid
generator is likewise an explicit parameter.  Fallible handlers return
`Except HTTPError`, mirroring `raise HTTPException(status_code, detail)`.
-/

/-- An `HTTPException(status_code, detail)` raised by a handler. -/
structure HTTPError where
  status_code : Nat
  detail : String
deriving DecidableEq, Repr

/-- One synthesized task dict stored in `tasks_storage` (`main.py` lines
    203–208): `{"id", "name", "status", "description"}`. -/
structure SimTask where
  id : String
  name : String
  status : String
  description : String
deriving DecidableEq, Repr

/-- One record of `requests_storage` (`main.py` lines 185–190):
    `{"request", "status", "created_at", "ready"}`. -/
structure SimRequest where
  request : String
  status : String
  created_at : Nat
  ready : Bool
deriving DecidableEq, Repr

/-- The two module-level dictionaries `requests_storage` and
    `tasks_storage`, both keyed by the request id, as association lists. -/
structure RegState where
  requests_storage : List (String × SimRequest)
  tasks_storage : List (String × List SimTask)
deriving DecidableEq, Repr

/-- Read `d[k]`: first binding of `k`, as Python dict lookup. -/
def dictLookup {α : Type} : List (String × α) → String → Option α
  | [], _ => none
  | (k', v) :: rest, k => if k' = k then some v else dictLookup rest k

/-- Write `d[k] = v`: bind `k` to `v`, shadowing any previous binding. -/
def dictInsert {α : Type} (k : String) (v : α) (d : List (String × α)) :
    List (String × α) :=
  (k, v) :: d.filter (fun kv => !(kv.1 == k))

/-- In-place mutation of the value bound to `k`, a no-op when `k` is
    absent (used for the simulator's writes to an entry it already read). -/
def dictMapAt {α : Type} (d : List (String × α)) (k : String) (f : α → α) :
    List (String × α) :=
  d.map (fun kv => if kv.1 = k then (kv.1, f kv.2) else kv)

/-- Model of `tasks_storage.get(request_id, [])`. -/
def tasksOf (s : RegState) (request_id : String) : List SimTask :=
  (dictLookup s.tasks_storage request_id).getD []

/-- Catalog `MOCK_TASKS` (`main.py` lines 156–165): the static catalog of 8
    `(name, description)` task templates. -/
def MOCK_TASKS : List (String × String) :=
  [("Initialize Project", "Setting up project structure and dependencies"),
   ("Data Processing", "Processing and analyzing input data"),
   ("API Integration", "Connecting to external services and APIs"),
   ("Model Training", "Training machine learning models"),
   ("Quality Assurance", "Running tests and validation checks"),
   ("Deployment", "Deploying to production environment"),
   ("Monitoring Setup", "Setting up monitoring and alerts"),
   ("Documentation", "Creating and updating documentation")]

/-- The `for i, task_template in enumerate(selected_tasks)` loop of
    `submit_request`: builds one `SimTask` per selected template, the task
    at running index 0 `in_progress`, all others `pending`.  `tid` models
    the fresh `uuid.uuid4()` drawn for each loop index. -/
def synthTasks (tid : Nat → String) : Nat → List (String × String) → List SimTask
  | _, [] => []
  | i, tpl :: rest =>
      { id := tid i, name := tpl.1,
        status := if i = 0 then "in_progress" else "pending",
        description := tpl.2 } :: synthTasks tid (i + 1) rest

/-- Handler `submit_request` (`main.py` lines 180–216): registers the request as
    `processing`/not-ready, synthesizes
    `min(len(MOCK_TASKS), 4 + (len(text) % 4))` tasks from the catalog
    prefix, and stores them.  `request_id` models the generated uuid and
    `now` the `datetime.now()` instant.  (The `asyncio.create_task` launch
    of the simulator is modelled separately by `simulate_processing`.) -/
def submit_request (request_id : String) (tid : Nat → String) (text : String)
    (now : Nat) (s : RegState) : RegState :=
  let req : SimRequest :=
    { request := text, status := "processing", created_at := now, ready := false }
  let num_tasks := min MOCK_TASKS.length (4 + text.length % 4)
  let selected_tasks := MOCK_TASKS.take num_tasks
  let tasks := synthTasks tid 0 selected_tasks
  { requests_storage := dictInsert request_id req s.requests_storage,
    tasks_storage := dictInsert request_id tasks s.tasks_storage }

/-- The status written to the task at index `i` of an `n`-task list by the
    progression loop: index 0 completes, index 1 goes in progress, the last
    index fails when `hash(request_id) % 4 == 0`, everything else
    completes.  `h` models Python's `hash`. -/
def simStatus (h : String → Int) (request_id : String) (n i : Nat) : String :=
  if i = 0 then "completed"
  else if i = 1 then "in_progress"
  else if i = n - 1 then
    (if h request_id % 4 = 0 then "failed" else "completed")
  else "completed"

/-- The `if request_id in requests_storage:` block: sets `ready = True` and
    `status = "ready"` on the registered record, a no-op when absent. -/
def markReady (request_id : String) (s : RegState) : RegState :=
  if (dictLookup s.requests_storage request_id).isSome then
    { s with requests_storage := (dictMapAt s.requests_storage request_id
        (fun r => { r with ready := true, status := "ready" })) }
  else s

/-- The `for i, task in enumerate(tasks)` progression loop, run to the end:
    every task's status is overwritten with `simStatus`.  `n` is the length
    of the full list, `i` the running index. -/
def progressList (h : String → Int) (request_id : String) (n : Nat) :
    Nat → List SimTask → List SimTask
  | _, [] => []
  | i, t :: rest =>
      { t with status := simStatus h request_id n i } ::
        progressList h request_id n (i + 1) rest

/-- The progression loop stopped after its first `k` iterations: tasks at
    index `< k` already carry their new status, later ones are untouched.
    Used to expose the intermediate states between the timed waits. -/
def progressListUpTo (h : String → Int) (request_id : String) (n k : Nat) :
    Nat → List SimTask → List SimTask
  | _, [] => []
  | i, t :: rest =>
      (if i < k then { t with status := simStatus h request_id n i } else t) ::
        progressListUpTo h request_id n k (i + 1) rest

/-- State of the registry after the first `k` task-progression iterations
    have run against the task list read via `tasks_storage.get(request_id, [])`
    (the in-place dict mutation is a no-op when the key is absent). -/
def progressState (h : String → Int) (request_id : String) (k : Nat)
    (s : RegState) : RegState :=
  let tasks := tasksOf s request_id
  { s with tasks_storage := (dictMapAt s.tasks_storage request_id
      (fun _ => progressListUpTo h request_id tasks.length k 0 tasks)) }

/-- Routine `simulate_processing` run to completion: after the initial wait the
    request is marked ready, then the progression loop rewrites every
    task's status. -/
def simulate_processing (h : String → Int) (request_id : String)
    (s : RegState) : RegState :=
  let s1 := markReady request_id s
  progressState h request_id (tasksOf s1 request_id).length s1

/-- The sequence of registry states `simulate_processing` passes through,
    one per timed wait: first the post-`markReady` state, then one state
    per task-progression iteration. -/
def simTrace (h : String → Int) (request_id : String) (s : RegState) :
    List RegState :=
  let s1 := markReady request_id s
  s1 :: (List.range (tasksOf s1 request_id).length).map
    (fun k => progressState h request_id (k + 1) s1)

/-- Handler `get_request_tasks` (`main.py` lines 255–264): 404 for an unknown id,
    400 while the record is not ready, else the stored task list. -/
def get_request_tasks (request_id : String) (s : RegState) :
    Except HTTPError (List SimTask) :=
  match dictLookup s.requests_storage request_id with
  | none => .error ⟨404, "Request not found"⟩
  | some r =>
      if !r.ready then .error ⟨400, "Request not ready yet"⟩
      else .ok (tasksOf s request_id)

/-- A `users` row: identity plus store-maintained timestamps. -/
structure UserRow where
  id : Int
  created_at : Nat
  updated_at : Nat
deriving DecidableEq, Repr

/-- A `git_projects` row. -/
structure ProjectRow where
  id : Int
  name : String
  description : Option String
  user_owner_id : Int
  created_at : Nat
  updated_at : Nat
deriving DecidableEq, Repr

/-- A `chat_statuses` or `task_statuses` row: id plus label. -/
structure StatusRow where
  id : Int
  label : String
deriving DecidableEq, Repr

/-- An `agent_chats` row. -/
structure ChatRow where
  id : Int
  name : String
  project_id : Int
  user_id : Int
  status_id : Int
  created_at : Nat
  updated_at : Nat
deriving DecidableEq, Repr

/-- An `agent_tasks` row (`models.py` lines 76–91): business fields,
    store-maintained `created_at`/`updated_at`, and the nullable
    `completed_at`. -/
structure TaskRow where
  id : Int
  name : String
  description : Option String
  status_id : Int
  chat_id : Int
  priority : Int
  created_at : Nat
  updated_at : Nat
  completed_at : Option Nat
deriving DecidableEq, Repr

/-- The persistent store: one table per entity.  `first()` lookups become
    `List.find?` on the table. -/
structure DB where
  users : List UserRow
  projects : List ProjectRow
  chat_statuses : List StatusRow
  task_statuses : List StatusRow
  chats : List ChatRow
  tasks : List TaskRow
deriving DecidableEq, Repr

/-- Model of `db.query(AgentTask).filter(AgentTask.id == task_id).first()`. -/
def findTask (db : DB) (task_id : Int) : Option TaskRow :=
  db.tasks.find? (fun t => t.id == task_id)

/-- Model of `db.query(TaskStatus).filter(TaskStatus.id == status_id).first()`. -/
def findTaskStatus (db : DB) (status_id : Int) : Option StatusRow :=
  db.task_statuses.find? (fun s => s.id == status_id)

/-- Model of `db.query(AgentChat).filter(AgentChat.id == chat_id).first()`. -/
def findChat (db : DB) (chat_id : Int) : Option ChatRow :=
  db.chats.find? (fun c => c.id == chat_id)

/-- The `detail` of the priority-validation `HTTPException`. -/
def priorityDetail : String := "Priority must be 1 (high), 2 (medium), or 3 (low)"

/-- Check `task.priority in [1, 2, 3]`. -/
def validPriority (p : Int) : Bool := p == 1 || p == 2 || p == 3

/-- The autoincrement primary key the store would assign to a new
    `agent_tasks` row. -/
def nextTaskId (db : DB) : Int :=
  (db.tasks.foldl (fun m t => max m t.id) 0) + 1

/-- Body of `POST /api/tasks` (`AgentTaskCreate`, `main.py` lines
    122–127); pydantic defaults are `status_id = 1`, `priority = 2`. -/
structure AgentTaskCreate where
  name : String
  description : Option String := none
  status_id : Int := 1
  chat_id : Int
  priority : Int := 2
deriving DecidableEq, Repr

/-- Body of `PUT /api/tasks/{id}` (`AgentTaskUpdate`, `main.py` lines
    130–134); `none` models a field absent from the request body
    (`exclude_unset=True`). -/
structure AgentTaskUpdate where
  name : Option String := none
  description : Option String := none
  status_id : Option Int := none
  priority : Option Int := none
deriving DecidableEq, Repr

/-- Handler `create_agent_task` (`main.py` lines 407–431): validates the chat
    reference, then the status reference, then the priority, and only then
    inserts the new row.  Returns the handler result paired with the store
    left behind (unchanged on every error path, since `db.add`/`db.commit`
    run only after all checks pass). -/
def create_agent_task (task : AgentTaskCreate) (now : Nat) (db : DB) :
    Except HTTPError TaskRow × DB :=
  if (findChat db task.chat_id).isNone then
    (.error ⟨400, "Chat not found"⟩, db)
  else if (findTaskStatus db task.status_id).isNone then
    (.error ⟨400, "Task status not found"⟩, db)
  else if !(validPriority task.priority) then
    (.error ⟨400, priorityDetail⟩, db)
  else
    let t : TaskRow :=
      { id := nextTaskId db, name := task.name,
        description := task.description, status_id := task.status_id,
        chat_id := task.chat_id, priority := task.priority,
        created_at := now, updated_at := now, completed_at := none }
    (.ok t, { db with tasks := db.tasks ++ [t] })

/-- The `setattr` loop of `update_agent_task` applied to the found row:
    each supplied field overwrites the old one, `completed_at` is written
    exactly when the supplied `status_id` equals 3 (the "Done" status id),
    and `updated_at` is refreshed by the store's `onupdate=func.now()`. -/
def applyTaskUpdate (t : TaskRow) (u : AgentTaskUpdate) (now : Nat) : TaskRow :=
  { t with
    name := u.name.getD t.name
    description := (match u.description with
      | some d => some d
      | none => t.description)
    status_id := u.status_id.getD t.status_id
    priority := u.priority.getD t.priority
    completed_at := (if u.status_id = some 3 then some now else t.completed_at)
    updated_at := now }

/-- Handler `update_agent_task` (`main.py` lines 447–474): 404 when the task id
    does not resolve; when `status_id` is supplied it must resolve (400
    otherwise) and, when it is 3 ("Done"), `completed_at = now` joins the
    update data; a supplied priority outside {1,2,3} is a 400; only then
    are the collected fields written to the row.  The store is returned
    unchanged on every error path. -/
def update_agent_task (task_id : Int) (u : AgentTaskUpdate) (now : Nat)
    (db : DB) : Except HTTPError TaskRow × DB :=
  match findTask db task_id with
  | none => (.error ⟨404, "Task not found"⟩, db)
  | some t =>
      let statusBad : Bool :=
        match u.status_id with
        | some sid => (findTaskStatus db sid).isNone
        | none => false
      let priorityBad : Bool :=
        match u.priority with
        | some p => !(validPriority p)
        | none => false
      if statusBad then (.error ⟨400, "Task status not found"⟩, db)
      else if priorityBad then (.error ⟨400, priorityDetail⟩, db)
      else
        let t' := applyTaskUpdate t u now
        (.ok t',
         { db with tasks := db.tasks.map (fun s => if s.id = task_id then t' else s) })

/-- Handler `get_projects` (`main.py` lines 326–330): `GET /api/projects` with an
    optional `user_id` query parameter; the filter is applied under
    `if user_id:`, i.e. Python truthiness (skipped for `None` and for
    `0`). -/
def get_projects (user_id : Option Int) (db : DB) : List ProjectRow :=
  match user_id with
  | some uid =>
      if uid != 0 then db.projects.filter (fun p => p.user_owner_id == uid)
      else db.projects
  | none => db.projects

/-- Empty registry: the state of the module-level dicts at process start. -/
def regEmpty : RegState := ⟨[], []⟩

/-- A concrete stand-in for the per-task uuid generator. -/
def demoTid : Nat → String := fun i => "task-" ++ toString i

/-- A concrete stand-in for Python's `hash` whose residue mod 4 is zero,
    forcing the failure branch for the last task. -/
def hashZero : String → Int := fun _ => 0

/-- Registry right after `submit_request` of the text `"abc"` (Scenario A). -/
def scenarioState : RegState := submit_request "r" demoTid "abc" 0 regEmpty

/-- Returns `true` exactly on the error outcome of a handler. -/
def resultIsError {α : Type} : Except HTTPError α → Bool
  | .error _ => true
  | .ok _ => false

/-- Seeded status reference set of `fixtures.py`: Done has id 3. -/
def demoStatuses : List StatusRow :=
  [⟨1, "Todo"⟩, ⟨2, "In Progress"⟩, ⟨3, "Done"⟩, ⟨4, "Failed"⟩]

/-- Seeded chat status reference set of `fixtures.py`. -/
def demoChatStatuses : List StatusRow := [⟨1, "Active"⟩, ⟨2, "Archived"⟩]

/-- Sample user, project, chat and task rows mirroring the fixture data. -/
def demoUser : UserRow := ⟨1, 0, 0⟩

def demoProject : ProjectRow := ⟨1, "Sample IDE Project", none, 1, 0, 0⟩

def demoChat : ChatRow := ⟨1, "Main Development Chat", 1, 1, 1, 0, 0⟩

def demoTask : TaskRow := ⟨1, "Set up project structure", none, 1, 1, 2, 5, 5, none⟩

/-- A concrete seeded store holding one task in status Todo. -/
def demoDB : DB :=
  ⟨[demoUser], [demoProject], demoChatStatuses, demoStatuses, [demoChat], [demoTask]⟩

/-- Body of a `PUT` supplying only `status_id` 3 (Done). -/
def updDone : AgentTaskUpdate := { status_id := some 3 }

/-- Body of a `PUT` supplying only `status_id` 1 (Todo). -/
def updTodo : AgentTaskUpdate := { status_id := some 1 }

/-- Row `demoTask` after the Done update at instant 10. -/
def demoTaskDone : TaskRow := ⟨1, "Set up project structure", none, 3, 1, 2, 5, 10, some 10⟩

/-- Store `demoDB` after the Done update at instant 10. -/
def demoDBDone : DB :=
  ⟨[demoUser], [demoProject], demoChatStatuses, demoStatuses, [demoChat], [demoTaskDone]⟩

/-- Body of a `POST /api/tasks` used to witness the creation rule. -/
def demoCreate : AgentTaskCreate := { name := "next task", chat_id := 1 }

/-- Row `create_agent_task demoCreate 7 demoDB` persists. -/
def demoCreatedTask : TaskRow := ⟨2, "next task", none, 1, 1, 2, 7, 7, none⟩

/-- Store after `create_agent_task demoCreate 7 demoDB`. -/
def demoCreatedDB : DB :=
  ⟨[demoUser], [demoProject], demoChatStatuses, demoStatuses, [demoChat],
   [demoTask, demoCreatedTask]⟩

/-- Row `demoTaskDone` after the Todo update at instant 20: status regresses,
    `completed_at` keeps its stamped value. -/
def demoTaskTodo : TaskRow := ⟨1, "Set up project structure", none, 1, 1, 2, 5, 20, some 10⟩

/-- Store after the Todo update at instant 20. -/
def demoDBTodo : DB :=
  ⟨[demoUser], [demoProject], demoChatStatuses, demoStatuses, [demoChat],
   [demoTaskTodo]⟩

/-- Body of a `PUT` supplying only `priority` 1: a partial update. -/
def updPrio : AgentTaskUpdate := { priority := some 1 }

/-- Row `demoTask` after `updPrio` at instant 30. -/
def demoTaskPrio : TaskRow := ⟨1, "Set up project structure", none, 1, 1, 1, 5, 30, none⟩

/-- Store after `updPrio` at instant 30. -/
def demoDBPrio : DB :=
  ⟨[demoUser], [demoProject], demoChatStatuses, demoStatuses, [demoChat],
   [demoTaskPrio]⟩

/-- An entirely empty store. -/
def emptyDB : DB := ⟨[], [], [], [], [], []⟩

/-- Body of a `POST /api/tasks` with an unresolvable chat and priority 5. -/
def badChatBadPriorityCreate : AgentTaskCreate :=
  { name := "t", chat_id := 99, priority := 5 }

/-- Body of a `POST /api/tasks` with valid references but priority 0. -/
def badPriorityCreate : AgentTaskCreate :=
  { name := "t", chat_id := 1, priority := 0 }

theorem dictLookup_dictInsert_self {α : Type} (k : String) (v : α)
    (d : List (String × α)) : dictLookup (dictInsert k v d) k = some v := by
  simp [dictInsert, dictLookup]

theorem dictLookup_dictMapAt_self {α : Type} (d : List (String × α))
    (k : String) (f : α → α) :
    dictLookup (dictMapAt d k f) k = (dictLookup d k).map f := by
  induction d with
  | nil => simp [dictMapAt, dictLookup]
  | cons kv rest ih =>
      obtain ⟨k', v⟩ := kv
      simp only [dictMapAt, List.map_cons] at ih ⊢
      by_cases hk : k' = k
      · subst hk
        rw [if_pos rfl]
        simp [dictLookup]
      · rw [if_neg hk]
        simp [dictLookup, hk, ih]

theorem dictMapAt_of_lookup_none {α : Type} (d : List (String × α))
    (k : String) (f : α → α) (h : dictLookup d k = none) :
    dictMapAt d k f = d := by
  induction d with
  | nil => rfl
  | cons kv rest ih =>
      obtain ⟨k', v⟩ := kv
      simp only [dictMapAt, List.map_cons] at ih ⊢
      by_cases hk : k' = k
      · subst hk; simp [dictLookup] at h
      · simp [dictLookup, hk] at h
        rw [if_neg hk, ih h]

theorem synthTasks_length (tid : Nat → String) (i : Nat)
    (l : List (String × String)) : (synthTasks tid i l).length = l.length := by
  induction l generalizing i with
  | nil => rfl
  | cons tpl rest ih => simp [synthTasks, ih]

theorem synthTasks_get? (tid : Nat → String) (i j : Nat)
    (l : List (String × String)) :
    (synthTasks tid i l).get? j = (l.get? j).map (fun tpl =>
      { id := tid (i + j), name := tpl.1,
        status := if i + j = 0 then "in_progress" else "pending",
        description := tpl.2 : SimTask }) := by
  induction l generalizing i j with
  | nil => simp [synthTasks]
  | cons tpl rest ih =>
      cases j with
      | zero => simp [synthTasks]
      | succ j' =>
          simp only [synthTasks, List.get?]
          rw [ih (i + 1) j']
          have harith : i + 1 + j' = i + (j' + 1) := by omega
          rw [harith]

theorem progressList_length (h : String → Int) (request_id : String)
    (n i : Nat) (l : List SimTask) :
    (progressList h request_id n i l).length = l.length := by
  induction l generalizing i with
  | nil => rfl
  | cons t rest ih => simp [progressList, ih]

theorem progressList_get? (h : String → Int) (request_id : String)
    (n i j : Nat) (l : List SimTask) :
    (progressList h request_id n i l).get? j = (l.get? j).map
      (fun t => { t with status := simStatus h request_id n (i + j) }) := by
  induction l generalizing i j with
  | nil => simp [progressList]
  | cons t rest ih =>
      cases j with
      | zero => simp [progressList]
      | succ j' =>
          simp only [progressList, List.get?]
          rw [ih (i + 1) j']
          have harith : i + 1 + j' = i + (j' + 1) := by omega
          rw [harith]

theorem progressListUpTo_of_all (h : String → Int) (request_id : String)
    (n k i : Nat) (l : List SimTask) (hk : i + l.length ≤ k) :
    progressListUpTo h request_id n k i l = progressList h request_id n i l := by
  induction l generalizing i with
  | nil => rfl
  | cons t rest ih =>
      simp only [List.length_cons] at hk
      simp only [progressListUpTo, progressList]
      rw [if_pos (by omega), ih (i + 1) (by omega)]

theorem markReady_tasks_storage (request_id : String) (s : RegState) :
    (markReady request_id s).tasks_storage = s.tasks_storage := by
  unfold markReady
  split <;> rfl

theorem markReady_lookup_self (request_id : String) (s : RegState) :
    dictLookup (markReady request_id s).requests_storage request_id =
      (dictLookup s.requests_storage request_id).map
        (fun r => { r with ready := true, status := "ready" }) := by
  cases hcase : dictLookup s.requests_storage request_id with
  | none => simp [markReady, hcase]
  | some r => simp [markReady, hcase, dictLookup_dictMapAt_self]

theorem simulate_requests_storage (h : String → Int) (request_id : String)
    (s : RegState) :
    (simulate_processing h request_id s).requests_storage =
      (markReady request_id s).requests_storage := rfl

theorem simulate_tasksOf (h : String → Int) (request_id : String)
    (s : RegState) (ts : List SimTask)
    (hts : dictLookup s.tasks_storage request_id = some ts) :
    dictLookup (simulate_processing h request_id s).tasks_storage request_id =
      some (progressList h request_id ts.length 0 ts) := by
  have hts1 : dictLookup (markReady request_id s).tasks_storage request_id
      = some ts := by
    rw [markReady_tasks_storage]; exact hts
  show dictLookup (progressState h request_id
      (tasksOf (markReady request_id s) request_id).length
      (markReady request_id s)).tasks_storage request_id = _
  unfold progressState
  rw [dictLookup_dictMapAt_self]
  unfold tasksOf
  rw [hts1]
  simp only [Option.getD_some, Option.map_some]
  rw [progressListUpTo_of_all h request_id ts.length ts.length 0 ts (by omega)]
  rfl

/-- Task list stored by `submit_request` under the request id. -/
theorem tasksOf_submit (request_id : String) (tid : Nat → String)
    (text : String) (now : Nat) (s : RegState) :
    tasksOf (submit_request request_id tid text now s) request_id =
      synthTasks tid 0
        (MOCK_TASKS.take (min MOCK_TASKS.length (4 + text.length % 4))) := by
  simp only [submit_request, tasksOf, dictLookup_dictInsert_self, Option.getD_some]

/-- Request record stored by `submit_request` under the request id. -/
theorem requestOf_submit (request_id : String) (tid : Nat → String)
    (text : String) (now : Nat) (s : RegState) :
    dictLookup (submit_request request_id tid text now s).requests_storage
        request_id =
      some { request := text, status := "processing", created_at := now,
             ready := false } := by
  simp only [submit_request, dictLookup_dictInsert_self]

/-- C1: for every submitted text, `submit_request` synthesizes exactly
    `min(8, 4 + (len(text) mod 4))` sub-tasks, taken in fixed order as a
    prefix of the 8-template catalog `MOCK_TASKS`, with the task at index 0
    `in_progress` and every other task `pending`. -/
theorem submit_synthesizes_catalog_plan (request_id : String)
    (tid : Nat → String) (text : String) (now : Nat) (s : RegState) :
    (tasksOf (submit_request request_id tid text now s) request_id).length
        = min 8 (4 + text.length % 4) ∧
    (∀ i, i < (tasksOf (submit_request request_id tid text now s) request_id).length →
      ((tasksOf (submit_request request_id tid text now s) request_id).map
          SimTask.name).get? i = (MOCK_TASKS.map Prod.fst).get? i ∧
      ((tasksOf (submit_request request_id tid text now s) request_id).map
          SimTask.description).get? i = (MOCK_TASKS.map Prod.snd).get? i ∧
      ((tasksOf (submit_request request_id tid text now s) request_id).map
          SimTask.status).get? i = some (if i = 0 then "in_progress" else "pending")) := by
  rw [tasksOf_submit]
  have hM : MOCK_TASKS.length = 8 := rfl
  constructor
  · rw [synthTasks_length, List.length_take, hM]
    omega
  · intro i hi
    rw [synthTasks_length, List.length_take, hM] at hi
    have hlt : i < min MOCK_TASKS.length (4 + text.length % 4) := by
      rw [hM]; omega
    have hiM : i < MOCK_TASKS.length := lt_of_lt_of_le hlt (Nat.min_le_left _ _)
    have hsome := List.get?_eq_get hiM
    refine ⟨?_, ?_, ?_⟩ <;>
      simp only [List.get?_map, synthTasks_get?, List.get?_take hlt, hsome,
        Option.map_some, Nat.zero_add] <;> simp

/-- Witness for C1 at Scenario A: the text `"abc"` (length 3) yields 7
    tasks, the first `in_progress`, the second `pending`. -/
theorem submit_synthesizes_catalog_plan_witness :
    (tasksOf scenarioState "r").length = 7 ∧
    ((tasksOf scenarioState "r").map SimTask.status).get? 0 = some "in_progress" ∧
    ((tasksOf scenarioState "r").map SimTask.status).get? 1 = some "pending" := by
  have h := submit_synthesizes_catalog_plan "r" demoTid "abc" 0 regEmpty
  have hlen : (tasksOf scenarioState "r").length = 7 := by
    have := h.1
    simpa [scenarioState] using this
  refine ⟨hlen, ?_, ?_⟩
  · have h0 := (h.2 0 (by rw [show (tasksOf (submit_request "r" demoTid "abc" 0 regEmpty) "r") = tasksOf scenarioState "r" from rfl, hlen]; omega)).2.2
    simpa [scenarioState] using h0
  · have h1 := (h.2 1 (by rw [show (tasksOf (submit_request "r" demoTid "abc" 0 regEmpty) "r") = tasksOf scenarioState "r" from rfl, hlen]; omega)).2.2
    simpa [scenarioState] using h1

/-- C7: `get_request_tasks` fails with 404 "Request not found" exactly when
    the id is not in the registry, fails with 400 "Request not ready yet"
    exactly when the id is registered but its readiness flag is false, and
    otherwise returns the stored task list; the two errors are distinct and
    NotFound takes precedence. -/
theorem get_request_tasks_characterization (request_id : String) (s : RegState) :
    (get_request_tasks request_id s = .error ⟨404, "Request not found"⟩
        ↔ dictLookup s.requests_storage request_id = none) ∧
    (get_request_tasks request_id s = .error ⟨400, "Request not ready yet"⟩
        ↔ (dictLookup s.requests_storage request_id).any
            (fun r => !r.ready) = true) ∧
    (∀ r, dictLookup s.requests_storage request_id = some r → r.ready = true →
        get_request_tasks request_id s = .ok (tasksOf s request_id)) := by
  cases hcase : dictLookup s.requests_storage request_id with
  | none =>
      refine ⟨by simp [get_request_tasks, hcase],
        by simp [get_request_tasks, hcase], ?_⟩
      intro r hr
      exact absurd hr (by simp)
  | some r =>
      cases hready : r.ready with
      | false =>
          refine ⟨by simp [get_request_tasks, hcase, hready], ?_, ?_⟩
          · simp [get_request_tasks, hcase, hready]
          · intro r' hr' hready'
            cases hr'
            rw [hready] at hready'
            exact absurd hready' (by simp)
      | true =>
          refine ⟨by simp [get_request_tasks, hcase, hready], ?_, ?_⟩
          · simp [get_request_tasks, hcase, hready]
          · intro r' hr' _
            simp [get_request_tasks, hcase, hready]

/-- Witness for C7: on the freshly submitted Scenario A state the handler
    answers 400 "Request not ready yet" for the registered id, and after the
    simulator runs it returns the task list for the same id. -/
theorem get_request_tasks_characterization_witness :
    get_request_tasks "r" scenarioState = .error ⟨400, "Request not ready yet"⟩ ∧
    get_request_tasks "missing" scenarioState = .error ⟨404, "Request not found"⟩ := by
  constructor
  · exact (get_request_tasks_characterization "r" scenarioState).2.1.mpr (by decide)
  · exact (get_request_tasks_characterization "missing" scenarioState).1.mpr (by decide)

/-- C8: when the registry entry for a request is absent, every mutation
    step of the simulator is a no-op — the `in requests_storage` membership
    test skips the ready-marking, the defaulted `get` leaves the task
    storage untouched — and `simulate_processing` (a total function, with
    no error outcome in its type) returns the state unchanged. -/
theorem simulate_processing_absent_entry_noop (h : String → Int)
    (request_id : String) (s : RegState) :
    (dictLookup s.requests_storage request_id = none →
        (simulate_processing h request_id s).requests_storage =
          s.requests_storage) ∧
    (dictLookup s.tasks_storage request_id = none →
        (simulate_processing h request_id s).tasks_storage = s.tasks_storage) ∧
    (dictLookup s.requests_storage request_id = none →
     dictLookup s.tasks_storage request_id = none →
        simulate_processing h request_id s = s) := by
  have hreq : ∀ (hn : dictLookup s.requests_storage request_id = none),
      markReady request_id s = s := by
    intro hn
    unfold markReady
    rw [hn]
    simp
  refine ⟨?_, ?_, ?_⟩
  · intro hn
    rw [simulate_requests_storage, hreq hn]
  · intro hn
    have hts : dictLookup (markReady request_id s).tasks_storage request_id = none := by
      rw [markReady_tasks_storage]; exact hn
    have hsim : (simulate_processing h request_id s).tasks_storage
        = dictMapAt (markReady request_id s).tasks_storage request_id
          (fun _ => progressListUpTo h request_id
            (tasksOf (markReady request_id s) request_id).length
            (tasksOf (markReady request_id s) request_id).length 0
            (tasksOf (markReady request_id s) request_id)) := rfl
    rw [hsim, dictMapAt_of_lookup_none _ _ _ hts, markReady_tasks_storage]
  · intro hn hnt
    show progressState h request_id _ (markReady request_id s) = s
    rw [hreq hn]
    unfold progressState
    simp only [dictMapAt_of_lookup_none _ _ _ hnt]

/-- Witness for C8: running the simulator for an unregistered id on the
    empty registry and on the Scenario A registry under a different id
    changes nothing. -/
theorem simulate_processing_absent_entry_noop_witness :
    simulate_processing hashZero "ghost" regEmpty = regEmpty ∧
    simulate_processing hashZero "ghost" scenarioState = scenarioState := by
  constructor
  · exact (simulate_processing_absent_entry_noop hashZero "ghost" regEmpty).2.2
      (by decide) (by decide)
  · exact (simulate_processing_absent_entry_noop hashZero "ghost" scenarioState).2.2
      (by decide) (by decide)

/-- Status of the task at index `i` after a full simulator run, when the
    request's task list is registered. -/
theorem simulate_status_get? (h : String → Int) (request_id : String)
    (s : RegState) (ts : List SimTask)
    (hts : dictLookup s.tasks_storage request_id = some ts)
    (i : Nat) (hi : i < ts.length) :
    ((tasksOf (simulate_processing h request_id s) request_id).map
        SimTask.status).get? i = some (simStatus h request_id ts.length i) := by
  unfold tasksOf
  rw [simulate_tasksOf h request_id s ts hts]
  simp only [Option.getD_some]
  rw [List.get?_map, progressList_get?, List.get?_eq_get hi]
  simp

/-- C4 (amended): when the simulator processes the synthesized task list of
    a registered request, it first (not afterwards) marks the request ready
    — the first state of its trace already has readiness flag `true` — and
    its final state has the request ready with status `"ready"`, the task
    at index 0 `completed`, the task at index 1 `in_progress`, the task at
    the last index (when that index is neither 0 nor 1) `failed` exactly
    when `hash(request_id) mod 4 = 0` and `completed` otherwise, and every
    other task `completed`. -/
theorem simulate_processing_task_status_map (h : String → Int)
    (request_id : String) (s : RegState) (r : SimRequest) (ts : List SimTask)
    (hreq : dictLookup s.requests_storage request_id = some r)
    (hts : dictLookup s.tasks_storage request_id = some ts) :
    ((simTrace h request_id s).headD s = markReady request_id s ∧
     (dictLookup (markReady request_id s).requests_storage request_id).map
        SimRequest.ready = some true) ∧
    ((dictLookup (simulate_processing h request_id s).requests_storage
        request_id).map SimRequest.ready = some true ∧
     (dictLookup (simulate_processing h request_id s).requests_storage
        request_id).map SimRequest.status = some "ready") ∧
    (∀ i, i < ts.length →
      ((tasksOf (simulate_processing h request_id s) request_id).map
          SimTask.status).get? i =
        some (if i = 0 then "completed"
              else if i = 1 then "in_progress"
              else if i = ts.length - 1 then
                (if h request_id % 4 = 0 then "failed" else "completed")
              else "completed")) := by
  refine ⟨⟨rfl, ?_⟩, ⟨?_, ?_⟩, ?_⟩
  · rw [markReady_lookup_self, hreq]; rfl
  · rw [simulate_requests_storage, markReady_lookup_self, hreq]; rfl
  · rw [simulate_requests_storage, markReady_lookup_self, hreq]; rfl
  · intro i hi
    rw [simulate_status_get? h request_id s ts hts i hi]
    rfl

/-- Counterexample to C4 as stated: on Scenario A the very first state of
    the simulator's trace (right after the initial wait, before any task
    mutation) already carries `ready = true` while the task at index 0
    still has its initial `in_progress` status; it becomes `completed` only
    in the final state.  The request is therefore marked ready before, not
    after, the task transitions. -/
theorem simulate_ready_ordering_counterexample :
    ((dictLookup ((simTrace hashZero "r" scenarioState).headD
        regEmpty).requests_storage "r").map SimRequest.ready = some true) ∧
    (((tasksOf ((simTrace hashZero "r" scenarioState).headD regEmpty) "r").map
        SimTask.status).get? 0 = some "in_progress") ∧
    (((tasksOf (simulate_processing hashZero "r" scenarioState) "r").map
        SimTask.status).get? 0 = some "completed") := by
  refine ⟨?_, ?_, ?_⟩ <;> decide

/-- C3 (amended): after the simulator for a submitted request runs all of
    its steps, every synthesized task except the one at index 1 has a
    terminal status (`completed` or `failed`); the task at index 1 is left
    `in_progress`.  The simulator performs no further mutation afterwards
    (its run is the single terminating pass modelled here). -/
theorem simulate_after_submit_terminal_except_second (h : String → Int)
    (request_id : String) (tid : Nat → String) (text : String) (now : Nat)
    (s : RegState) :
    (∀ i, i < (tasksOf (simulate_processing h request_id
          (submit_request request_id tid text now s)) request_id).length →
        i ≠ 1 →
        (((tasksOf (simulate_processing h request_id
            (submit_request request_id tid text now s)) request_id).map
            SimTask.status).get? i = some "completed" ∨
         ((tasksOf (simulate_processing h request_id
            (submit_request request_id tid text now s)) request_id).map
            SimTask.status).get? i = some "failed")) ∧
    ((tasksOf (simulate_processing h request_id
        (submit_request request_id tid text now s)) request_id).map
        SimTask.status).get? 1 = some "in_progress" := by
  have hts : dictLookup (submit_request request_id tid text now s).tasks_storage
      request_id = some (synthTasks tid 0
        (MOCK_TASKS.take (min MOCK_TASKS.length (4 + text.length % 4)))) := by
    simp only [submit_request, dictLookup_dictInsert_self]
  have hlen : (synthTasks tid 0
      (MOCK_TASKS.take (min MOCK_TASKS.length (4 + text.length % 4)))).length
      = 4 + text.length % 4 := by
    rw [synthTasks_length, List.length_take]
    have hM : MOCK_TASKS.length = 8 := rfl
    rw [hM]
    omega
  have hlensim : (tasksOf (simulate_processing h request_id
      (submit_request request_id tid text now s)) request_id).length
      = 4 + text.length % 4 := by
    unfold tasksOf
    rw [simulate_tasksOf h request_id _ _ hts]
    simp only [Option.getD_some]
    rw [progressList_length, hlen]
  constructor
  · intro i hi hi1
    rw [hlensim] at hi
    rw [simulate_status_get? h request_id _ _ hts i (by rw [hlen]; omega)]
    unfold simStatus
    rw [hlen]
    split_ifs <;> simp_all
  · rw [simulate_status_get? h request_id _ _ hts 1 (by rw [hlen]; omega)]
    unfold simStatus
    rw [hlen]
    simp

/-- Counterexample to C3 as stated: on Scenario A (text `"abc"`, 7 tasks)
    the task at index 1 ends the complete simulator run as `in_progress`,
    which is neither `completed` nor `failed`. -/
theorem simulate_terminal_status_counterexample :
    ((tasksOf (simulate_processing hashZero "r" scenarioState) "r").map
        SimTask.status).get? 1 = some "in_progress" ∧
    ¬ (((tasksOf (simulate_processing hashZero "r" scenarioState) "r").map
          SimTask.status).get? 1 = some "completed" ∨
       ((tasksOf (simulate_processing hashZero "r" scenarioState) "r").map
          SimTask.status).get? 1 = some "failed") := by
  refine ⟨by decide, by decide⟩

/-- Characterization of a successful `update_agent_task`: the returned row
    is the found row with the collected update data applied, and the store
    holds that row in place of the old one. -/
theorem update_agent_task_ok (task_id : Int) (u : AgentTaskUpdate) (now : Nat)
    (db : DB) (t t' : TaskRow) (db' : DB)
    (hfind : findTask db task_id = some t)
    (hok : update_agent_task task_id u now db = (.ok t', db')) :
    t' = applyTaskUpdate t u now ∧
    db' = { db with tasks := (db.tasks.map
        (fun s => if s.id = task_id then t' else s)) } := by
  simp only [update_agent_task, hfind] at hok
  split at hok
  · exact absurd hok (by simp)
  · split at hok
    · exact absurd hok (by simp)
    · simp only [Prod.mk.injEq, Except.ok.injEq] at hok
      obtain ⟨ht', hdb'⟩ := hok
      subst ht'
      exact ⟨rfl, hdb'.symm⟩

/-- Characterization of a successful `create_agent_task`: the returned row
    carries the request's fields, the current instant as both timestamps,
    a null `completed_at`, and is appended to the store. -/
theorem create_agent_task_ok (c : AgentTaskCreate) (now : Nat) (db : DB)
    (t : TaskRow) (db' : DB)
    (hok : create_agent_task c now db = (.ok t, db')) :
    t = { id := nextTaskId db, name := c.name, description := c.description,
          status_id := c.status_id, chat_id := c.chat_id,
          priority := c.priority, created_at := now, updated_at := now,
          completed_at := none } ∧
    db' = { db with tasks := db.tasks ++ [t] } := by
  unfold create_agent_task at hok
  split at hok
  · exact absurd hok (by simp)
  · split at hok
    · exact absurd hok (by simp)
    · split at hok
      · exact absurd hok (by simp)
      · simp only [Prod.mk.injEq, Except.ok.injEq] at hok
        obtain ⟨ht, hdb'⟩ := hok
        subst ht
        exact ⟨rfl, hdb'.symm⟩

/-- C2 (amended): `completed_at` is null at creation and `update_agent_task`
    sets it to the current instant exactly when the supplied `status_id` is
    3 ("Done") — including on an already-Done task, which re-stamps it —
    and leaves it at its prior value otherwise; it is never cleared, so
    after a Done → non-Done update the stale non-null value remains. -/
theorem completed_at_stamping_rule (now : Nat) (db : DB) :
    (∀ c t db', create_agent_task c now db = (.ok t, db') →
        t.completed_at = none) ∧
    (∀ task_id u t t' db', findTask db task_id = some t →
        update_agent_task task_id u now db = (.ok t', db') →
        t'.completed_at =
          (if u.status_id = some 3 then some now else t.completed_at)) := by
  constructor
  · intro c t db' hok
    obtain ⟨ht, -⟩ := create_agent_task_ok c now db t db' hok
    rw [ht]
  · intro task_id u t t' db' hfind hok
    obtain ⟨ht', -⟩ := update_agent_task_ok task_id u now db t t' db' hfind hok
    rw [ht']
    rfl

/-- Witness for C2 (amended): on the seeded store, creation leaves
    `completed_at` null and the Done update at instant 10 stamps it. -/
theorem completed_at_stamping_rule_witness :
    demoCreatedTask.completed_at = none ∧
    demoTaskDone.completed_at = some 10 := by
  constructor
  · exact (completed_at_stamping_rule 7 demoDB).1 demoCreate demoCreatedTask
      demoCreatedDB rfl
  · have h := (completed_at_stamping_rule 10 demoDB).2 1 updDone demoTask
      demoTaskDone demoDBDone rfl rfl
    simpa using h

/-- Counterexample to C2 as stated: on the seeded store, a Done update at
    instant 10 followed by a Todo update at instant 20 leaves a task whose
    status is 1 (not Done) with `completed_at = some 10` still set — the
    claimed invariant "null exactly when not Done" fails — and re-supplying
    Done at instant 20 re-stamps `completed_at` to 20. -/
theorem completed_at_invariant_counterexample :
    update_agent_task 1 updDone 10 demoDB = (.ok demoTaskDone, demoDBDone) ∧
    (update_agent_task 1 updTodo 20 demoDBDone).1.map
        (fun t => (t.status_id, t.completed_at)) = .ok ((1 : Int), some 10) ∧
    (update_agent_task 1 updDone 20 demoDBDone).1.map
        TaskRow.completed_at = .ok (some 20) := by
  exact ⟨rfl, rfl, rfl⟩

/-- C5: every successful `update_agent_task` call that supplies the "Done"
    status id (3) returns a task whose `completed_at` is non-null and (for
    a clock that has not gone backwards since creation) ≥ the task's
    creation timestamp; every successful call that supplies a different
    status id leaves `completed_at` at its prior value. -/
theorem update_done_status_stamps_now (task_id : Int) (u : AgentTaskUpdate)
    (now : Nat) (db : DB) (t t' : TaskRow) (db' : DB)
    (hfind : findTask db task_id = some t)
    (hok : update_agent_task task_id u now db = (.ok t', db'))
    (hclock : t.created_at ≤ now) :
    (u.status_id = some 3 →
        t'.completed_at ≠ none ∧
        ∀ c, t'.completed_at = some c → t.created_at ≤ c) ∧
    (∀ sid, u.status_id = some sid → sid ≠ 3 →
        t'.completed_at = t.completed_at) := by
  obtain ⟨ht', -⟩ := update_agent_task_ok task_id u now db t t' db' hfind hok
  subst ht'
  constructor
  · intro h3
    constructor
    · simp [applyTaskUpdate, h3]
    · intro c hc
      simp [applyTaskUpdate, h3] at hc
      omega
  · intro sid hsid hne
    simp [applyTaskUpdate, hsid, hne]

/-- Witness for C5 (Scenario C): the Done update at instant 10 yields a
    non-null `completed_at` ≥ the creation timestamp 5, and the following
    Todo update at instant 20 leaves it unchanged. -/
theorem update_done_status_stamps_now_witness :
    demoTaskDone.completed_at ≠ none ∧
    demoTask.created_at ≤ 10 ∧
    demoTaskTodo.completed_at = demoTaskDone.completed_at := by
  refine ⟨?_, by decide, ?_⟩
  · exact ((update_done_status_stamps_now 1 updDone 10 demoDB demoTask
      demoTaskDone demoDBDone rfl rfl (by decide)).1 rfl).1
  · exact (update_done_status_stamps_now 1 updTodo 20 demoDBDone demoTaskDone
      demoTaskTodo demoDBTodo rfl rfl (by decide)).2 1 rfl (by decide)

/-- C9: a successful partial update changes only the supplied fields —
    every field absent from the body (`name`, `description`, `status_id`,
    `priority`) keeps its prior value, `completed_at` changes only as the
    side effect of a supplied "Done" status, the row's identity/chat/
    creation timestamp are untouched, every other task row is preserved,
    and every other table of the store is unchanged. -/
theorem update_agent_task_frame (task_id : Int) (u : AgentTaskUpdate)
    (now : Nat) (db : DB) (t t' : TaskRow) (db' : DB)
    (hfind : findTask db task_id = some t)
    (hok : update_agent_task task_id u now db = (.ok t', db')) :
    (u.name = none → t'.name = t.name) ∧
    (u.description = none → t'.description = t.description) ∧
    (u.status_id = none → t'.status_id = t.status_id) ∧
    (u.priority = none → t'.priority = t.priority) ∧
    (u.status_id = none → t'.completed_at = t.completed_at) ∧
    (∀ sid, u.status_id = some sid → sid ≠ 3 →
        t'.completed_at = t.completed_at) ∧
    t'.id = t.id ∧ t'.chat_id = t.chat_id ∧ t'.created_at = t.created_at ∧
    db'.users = db.users ∧ db'.projects = db.projects ∧
    db'.chat_statuses = db.chat_statuses ∧
    db'.task_statuses = db.task_statuses ∧ db'.chats = db.chats ∧
    (∀ s, s ∈ db.tasks → s.id ≠ task_id → s ∈ db'.tasks) := by
  obtain ⟨ht', hdb'⟩ := update_agent_task_ok task_id u now db t t' db' hfind hok
  subst ht' hdb'
  refine ⟨?_, ?_, ?_, ?_, ?_, ?_, rfl, rfl, rfl, rfl, rfl, rfl, rfl, rfl, ?_⟩
  · intro hn; simp [applyTaskUpdate, hn]
  · intro hn; simp [applyTaskUpdate, hn]
  · intro hn; simp [applyTaskUpdate, hn]
  · intro hn; simp [applyTaskUpdate, hn]
  · intro hn; simp [applyTaskUpdate, hn]
  · intro sid hsid hne; simp [applyTaskUpdate, hsid, hne]
  · intro s hs hneq
    exact List.mem_map.mpr ⟨s, hs, by simp [hneq]⟩

/-- Witness for C9: updating only the priority on the seeded store leaves
    name, description, status and `completed_at` at their prior values and
    the other tables unchanged. -/
theorem update_agent_task_frame_witness :
    demoTaskPrio.name = demoTask.name ∧
    demoTaskPrio.description = demoTask.description ∧
    demoTaskPrio.status_id = demoTask.status_id ∧
    demoTaskPrio.completed_at = demoTask.completed_at ∧
    demoDBPrio.chats = demoDB.chats := by
  have h := update_agent_task_frame 1 updPrio 30 demoDB demoTask demoTaskPrio
    demoDBPrio rfl rfl
  exact ⟨h.1 rfl, h.2.1 rfl, h.2.2.1 rfl, h.2.2.2.2.1 rfl,
    h.2.2.2.2.2.2.2.2.2.2.2.2.2.1⟩

/-- C6 (amended): every Task create or update call whose supplied priority
    is outside {1,2,3} fails with a client error and leaves the store
    completely unchanged; the error is the InvalidPriority one whenever the
    checks preceding the priority check pass (create: chat and status
    resolve; update: the task exists and any supplied status resolves) —
    when an earlier reference check fails, its InvalidReference/NotFound
    error takes precedence. -/
theorem invalid_priority_rejected (now : Nat) (db : DB) :
    (∀ c, c.priority ≠ 1 → c.priority ≠ 2 → c.priority ≠ 3 →
        resultIsError (create_agent_task c now db).1 = true ∧
        (create_agent_task c now db).2 = db ∧
        ((findChat db c.chat_id).isSome = true →
         (findTaskStatus db c.status_id).isSome = true →
            (create_agent_task c now db).1 = .error ⟨400, priorityDetail⟩)) ∧
    (∀ task_id u p, u.priority = some p → p ≠ 1 → p ≠ 2 → p ≠ 3 →
        resultIsError (update_agent_task task_id u now db).1 = true ∧
        (update_agent_task task_id u now db).2 = db ∧
        ((findTask db task_id).isSome = true →
         (∀ sid, u.status_id = some sid →
            (findTaskStatus db sid).isSome = true) →
            (update_agent_task task_id u now db).1 =
              .error ⟨400, priorityDetail⟩)) := by
  constructor
  · intro c h1 h2 h3
    have hvp : validPriority c.priority = false := by
      simp [validPriority, h1, h2, h3]
    unfold create_agent_task
    by_cases hc : (findChat db c.chat_id).isNone
    · rw [if_pos hc]
      refine ⟨rfl, rfl, ?_⟩
      intro hcs
      rw [Option.isNone_iff_eq_none] at hc
      rw [hc] at hcs
      simp at hcs
    · rw [if_neg hc]
      by_cases hs : (findTaskStatus db c.status_id).isNone
      · rw [if_pos hs]
        refine ⟨rfl, rfl, ?_⟩
        intro _ hss
        rw [Option.isNone_iff_eq_none] at hs
        rw [hs] at hss
        simp at hss
      · rw [if_neg hs, hvp]
        exact ⟨rfl, rfl, fun _ _ => rfl⟩
  · intro task_id u p hp h1 h2 h3
    have hvp : validPriority p = false := by
      simp [validPriority, h1, h2, h3]
    unfold update_agent_task
    cases hfind : findTask db task_id with
    | none =>
        refine ⟨rfl, rfl, ?_⟩
        intro hts
        simp at hts
    | some t =>
        cases hu : u.status_id with
        | none =>
            refine ⟨?_, ?_, ?_⟩
            · simp [hu, hp, hvp, resultIsError]
            · simp [hu, hp, hvp]
            · intro _ _
              simp [hu, hp, hvp]
        | some sid =>
            by_cases hss : (findTaskStatus db sid).isNone = true
            · refine ⟨?_, ?_, ?_⟩
              · simp [hu, hp, hvp, hss, resultIsError]
              · simp [hu, hp, hvp, hss]
              · intro _ hres
                have hsome := hres sid rfl
                rw [Option.isNone_iff_eq_none] at hss
                rw [hss] at hsome
                simp at hsome
            · rw [Bool.not_eq_true] at hss
              refine ⟨?_, ?_, ?_⟩
              · simp [hu, hp, hvp, hss, resultIsError]
              · simp [hu, hp, hvp, hss]
              · intro _ _
                simp [hu, hp, hvp, hss]

/-- Counterexample to C6 as stated: a create call whose priority 5 is
    outside {1,2,3} but whose chat reference is also unresolvable fails
    with the InvalidReference error "Chat not found", not the
    InvalidPriority error — the chat check precedes the priority check. -/
theorem invalid_priority_error_counterexample :
    (create_agent_task badChatBadPriorityCreate 0 emptyDB).1
        = .error ⟨400, "Chat not found"⟩ ∧
    (⟨400, "Chat not found"⟩ : HTTPError) ≠ ⟨400, priorityDetail⟩ := by
  exact ⟨rfl, by decide⟩

/-- Witness for C6 (amended): on the seeded store, a create with priority 0
    and resolvable references fails with the InvalidPriority error and the
    store is unchanged; so does an update supplying priority 0. -/
theorem invalid_priority_rejected_witness :
    (create_agent_task badPriorityCreate 0 demoDB).1
        = .error ⟨400, priorityDetail⟩ ∧
    (create_agent_task badPriorityCreate 0 demoDB).2 = demoDB ∧
    (update_agent_task 1 { priority := some 0 } 0 demoDB).1
        = .error ⟨400, priorityDetail⟩ ∧
    (update_agent_task 1 { priority := some 0 } 0 demoDB).2 = demoDB := by
  have hc := (invalid_priority_rejected 0 demoDB).1 badPriorityCreate
    (by decide) (by decide) (by decide)
  have hu := (invalid_priority_rejected 0 demoDB).2 1 { priority := some 0 } 0
    rfl (by decide) (by decide) (by decide)
  exact ⟨hc.2.2 (by decide) (by decide), hc.2.1,
    hu.2.2 (by decide) (fun sid hsid => by simp at hsid), hu.2.1⟩

/-- C10: for `GET /api/projects`, a `user_id` query parameter equal to 0 is
    treated the same as an absent parameter — the handler tests the
    parameter for Python truthiness, so the owner filter is skipped and the
    full unfiltered project list is returned. -/
theorem get_projects_user_id_zero_unfiltered (db : DB) :
    get_projects (some 0) db = db.projects ∧
    get_projects (some 0) db = get_projects none db := by
  constructor <;> simp [get_projects]

/-- Witness for C4: on Scenario A with a hash residue of 0, the final state
    has the request status `"ready"` and the last task (index 6) `failed`. -/
theorem simulate_processing_task_status_map_witness :
    ((tasksOf (simulate_processing hashZero "r" scenarioState) "r").map
        SimTask.status).get? 6 = some "failed" ∧
    (dictLookup (simulate_processing hashZero "r"
        scenarioState).requests_storage "r").map SimRequest.status
        = some "ready" := by
  have h := simulate_processing_task_status_map hashZero "r" scenarioState
      { request := "abc", status := "processing", created_at := 0, ready := false }
      (tasksOf scenarioState "r") (by decide) (by decide)
  refine ⟨?_, h.2.1.2⟩
  have h6 := h.2.2 6 (by decide)
  rw [h6]
  decide

/-- Witness for C3 (amended): on Scenario A the task at index 0 ends
    terminal and the task at index 1 ends `in_progress`. -/
theorem simulate_after_submit_terminal_except_second_witness :
    (((tasksOf (simulate_processing hashZero "r"
          (submit_request "r" demoTid "abc" 0 regEmpty)) "r").map
        SimTask.status).get? 0 = some "completed" ∨
     ((tasksOf (simulate_processing hashZero "r"
          (submit_request "r" demoTid "abc" 0 regEmpty)) "r").map
        SimTask.status).get? 0 = some "failed") ∧
    ((tasksOf (simulate_processing hashZero "r"
        (submit_request "r" demoTid "abc" 0 regEmpty)) "r").map
        SimTask.status).get? 1 = some "in_progress" := by
  have h := simulate_after_submit_terminal_except_second hashZero "r" demoTid
    "abc" 0 regEmpty
  exact ⟨h.1 0 (by decide) (by decide), h.2⟩
